import Mathlib

/-
  Verification development for the onchain-registry helper:
  a shallow embedding of `registrar.py` (ERC8004Registrar: wallet
  load/create and on-chain registration) and `mock_rpc.py` (the mock
  JSON-RPC endpoint), with theorems settling the specification claims.

  External effects (environment variables, the file system, the chain
  client, and library crypto) are modelled by explicit world records
  whose fields give the outcome of each fallible external call; `Option`
  and `Except` model Python exceptions at their raise sites.  Observable
  side effects (network calls, file reads and writes, distinct error
  logs) are recorded as explicit event traces so that ordering and
  absence of effects are provable.
-/

namespace OnchainRegistry

/-! ## Python-style helpers -/

/-- Truthiness of an optional string, as Python `not s` on the result of
`os.getenv`: both an unset variable and the empty string are falsy. -/
def pyFalsyStr : Option String → Bool
  | none => true
  | some s => s == ""

/-- Hex digit characters, lower case, as produced by `Web3.to_hex`. -/
def hexDigit (n : Nat) : Char :=
  if n < 10 then Char.ofNat (48 + n) else Char.ofNat (87 + n)

/-- Two hex characters for one byte. -/
def byteToHex (b : Nat) : List Char :=
  [hexDigit (b / 16 % 16), hexDigit (b % 16)]

/-- The function Web3.to_hex on a byte string: canonical 0x-prefixed lower-case hex. -/
def toHex (bs : List Nat) : String :=
  "0x" ++ String.mk (bs.flatMap byteToHex)

/-- A run of `n` copies of character `c` after a 0x prefix, as the Python
idiom `"0x" + c * n` used for the placeholder hashes. -/
def hexRun (c : Char) (n : Nat) : String :=
  "0x" ++ String.mk (List.replicate n c)

/-! ## IEEE-754 double model for `int(gas_estimate * 1.2)`

CPython evaluates `gas_estimate * 1.2` by converting the int to a
double (round to nearest, ties to even, 53 significant bits),
multiplying by the double nearest to 1.2, rounding the exact product
back to 53 significant bits, and `int` then truncates toward zero.
`FLOAT12_SIG / 2 ^ 52` is exactly the double nearest to 1.2. -/

/-- Number of binary digits of `n`, with explicit fuel (fuel 256 is exact
for every value reachable here). -/
def bits : Nat → Nat → Nat
  | 0, _ => 0
  | fuel + 1, n => if n = 0 then 0 else bits fuel (n / 2) + 1

/-- Round a natural number to 53 significant bits, ties to even: the
integer significand scaled back up, i.e. the exact value of the nearest
double. -/
def round53 (p : Nat) : Nat :=
  let k := bits 256 p
  if k ≤ 53 then p
  else
    let sh := k - 53
    let q := p / 2 ^ sh
    let r := p % 2 ^ sh
    let half := 2 ^ (sh - 1)
    let q2 :=
      if half < r then q + 1
      else if r < half then q
      else if q % 2 = 0 then q else q + 1
    q2 * 2 ^ sh

/-- The 53-bit significand of the double nearest to 1.2, scaled by 2^52. -/
def FLOAT12_SIG : Nat := 5404319552844595

/-- The value of the Python expression `int(n * 1.2)` for a nonnegative
int `n`, under IEEE-754 double semantics. -/
def pyIntMul12 (n : Nat) : Nat :=
  round53 (round53 n * FLOAT12_SIG) / 2 ^ 52

/-! ## Wallet manager: `ERC8004Registrar.load_or_create_wallet` -/

/-- A signing identity, `eth_account.Account`; the key determines the
account, and the derived address is modelled symbolically by the key. -/
structure Account where
  key : Nat
deriving DecidableEq

/-- The checksummed address of an account, modelled symbolically. -/
def Account.address (a : Account) : Nat := a.key

/-- An encrypted keystore file body: `Account.encrypt(key, password)`.
`Account.decrypt` succeeds exactly when given the matching password. -/
structure EncryptedKeystore where
  keyCipher : Nat
  pwTag : String
deriving DecidableEq

/-- Configuration read from environment variables. -/
structure WalletConfig where
  password : Option String
  privateKey : Option String
  keystorePath : Option String

/-- Outcomes of the external calls the wallet manager makes: key parsing
(`Account.from_key`), the file system, fresh key generation
(`Account.create`), and whether the keystore write succeeds. -/
structure WalletWorld where
  parseKey : String → Option Nat
  fs : String → Option EncryptedKeystore
  freshKey : Nat
  writeOk : Bool

/-- Observable wallet-manager side effects. -/
inductive WEvent where
  | readKeystore (path : String)
  | createAccount
  | writeKeystore (path : String)
deriving DecidableEq

/-- Default keystore path constant from the source. -/
def DEFAULT_KEYSTORE_PATH : String := "agent_keystore.json"

/-- Priority 2 and 3 of `load_or_create_wallet`: the keystore file is
read and decrypted when it exists, otherwise a fresh account is created,
encrypted with the password and written to the configured path. -/
def keystoreFlow (cfg : WalletConfig) (w : WalletWorld) (acct : Option Account)
    (p : String) : Option Nat × Option Account × WalletWorld × List WEvent :=
  let path := cfg.keystorePath.getD DEFAULT_KEYSTORE_PATH
  match w.fs path with
  | some ek =>
    if ek.pwTag = p then
      (some (Account.mk ek.keyCipher).address, some (Account.mk ek.keyCipher), w,
        [WEvent.readKeystore path])
    else
      (none, acct, w, [WEvent.readKeystore path])
  | none =>
    let a := Account.mk w.freshKey
    if w.writeOk then
      (some a.address, some a,
        { w with fs := fun q => if q = path then some (EncryptedKeystore.mk w.freshKey p) else w.fs q },
        [WEvent.createAccount, WEvent.writeKeystore path])
    else
      (none, some a, w, [WEvent.createAccount])

/-- The method load_or_create_wallet of ERC8004Registrar: password precondition,
then raw private key from configuration, then keystore file, then fresh
wallet creation.  Returns the address, the updated account slot, the
updated world, and the trace of file-system effects. -/
def loadOrCreateWallet (cfg : WalletConfig) (w : WalletWorld) (acct : Option Account) :
    Option Nat × Option Account × WalletWorld × List WEvent :=
  if pyFalsyStr cfg.password then
    (none, acct, w, [])
  else
    let p := cfg.password.getD ""
    if pyFalsyStr cfg.privateKey then
      keystoreFlow cfg w acct p
    else
      match w.parseKey (cfg.privateKey.getD "") with
      | some key => (some (Account.mk key).address, some (Account.mk key), w, [])
      | none => (none, acct, w, [])

/-! ## Registrar: `ERC8004Registrar.register` -/

/-- The transaction record built by `build_transaction` and mutated by
the gas-estimation step. -/
structure Tx where
  fromAddr : Nat
  nonce : Nat
  gas : Option Nat
  url : String
  toAddr : String
deriving DecidableEq

/-- A transaction receipt; only the status field is inspected. -/
structure Receipt where
  status : Nat
deriving DecidableEq

/-- Exception kinds distinguished by the two except clauses. -/
inductive ChainErr where
  | contractLogic
  | other
deriving DecidableEq

/-- Outcomes of the chain-client calls made by `register`: connectivity,
address checksumming, nonce fetch, transaction building, gas estimation,
local signing, raw submission and the receipt wait.  `none` or
`Except.error` at a field models the corresponding call raising. -/
structure ChainWorld where
  connected : Bool
  checksum : String → Option String
  nonceOf : Nat → Option Nat
  buildOk : Bool
  estimateGas : Tx → Option Nat
  signOk : Tx → Bool
  sendTx : Tx → Except ChainErr (List Nat)
  receiptOf : List Nat → Option Receipt

/-- Observable registration effects: network calls, the local signing
step, and the distinct error logs of the precondition checks. -/
inductive REvent where
  | isConnectedCall
  | logNotConnected
  | logNoWallet
  | logNoRegistry
  | nonceFetch
  | gasEstimate (outcome : Option Nat)
  | signCall
  | sendRaw (tx : Tx)
  | receiptWait (h : List Nat)
deriving DecidableEq

/-- Instance state of `ERC8004Registrar`. -/
structure RegistrarState where
  w3 : Option ChainWorld
  account : Option Account
  registryAddress : Option String

/-- The transaction as first built: from the wallet address, with the
fetched nonce, no gas set yet, carrying the register(url) call to the
checksummed registry address. -/
def buildTx (acct : Account) (a2 url : String) (nn : Nat) : Tx :=
  { fromAddr := acct.address, nonce := nn, gas := none, url := url, toAddr := a2 }

/-- The gas-estimation step: on success the gas field is set to
`int(gas_estimate * 1.2)`; on failure the transaction is left unchanged. -/
def applyGas (c : ChainWorld) (tx : Tx) : Tx :=
  match c.estimateGas tx with
  | some g => { tx with gas := some (pyIntMul12 g) }
  | none => tx

/-- The try block of `register` after the precondition checks: checksum,
nonce fetch, build, best-effort gas estimation, sign, submit, wait for
the receipt, and inspect its status.  Errors carry the trace of effects
performed before the raise. -/
def registerTry (c : ChainWorld) (acct : Account) (regAddr url : String) :
    Except (ChainErr × List REvent) (Option String × List REvent) :=
  match c.checksum regAddr with
  | none => Except.error (ChainErr.other, [])
  | some a2 =>
    match c.nonceOf acct.address with
    | none => Except.error (ChainErr.other, [REvent.nonceFetch])
    | some nn =>
      if c.buildOk = false then Except.error (ChainErr.other, [REvent.nonceFetch])
      else
        let t0 := buildTx acct a2 url nn
        let t1 := applyGas c t0
        if c.signOk t1 = false then
          Except.error (ChainErr.other,
            [REvent.nonceFetch, REvent.gasEstimate (c.estimateGas t0)])
        else
          match c.sendTx t1 with
          | Except.error e =>
            Except.error (e,
              [REvent.nonceFetch, REvent.gasEstimate (c.estimateGas t0), REvent.signCall])
          | Except.ok hsh =>
            match c.receiptOf hsh with
            | none =>
              Except.error (ChainErr.other,
                [REvent.nonceFetch, REvent.gasEstimate (c.estimateGas t0), REvent.signCall,
                  REvent.sendRaw t1])
            | some r =>
              if r.status = 1 then
                Except.ok (some (toHex hsh),
                  [REvent.nonceFetch, REvent.gasEstimate (c.estimateGas t0), REvent.signCall,
                    REvent.sendRaw t1, REvent.receiptWait hsh])
              else
                Except.ok (none,
                  [REvent.nonceFetch, REvent.gasEstimate (c.estimateGas t0), REvent.signCall,
                    REvent.sendRaw t1, REvent.receiptWait hsh])

/-- The method register of ERC8004Registrar: the mock short-circuit, the three
precondition checks in source order, then the guarded try block whose
every raise is caught and converted to `none`. -/
def register (agent_url : String) (mock : Bool) (st : RegistrarState) :
    Option String × RegistrarState × List REvent :=
  if mock then
    (some ("0x" ++ String.mk (List.replicate 64 '0')), st, [])
  else
    match st.w3 with
    | none => (none, st, [REvent.logNotConnected])
    | some c =>
      if c.connected = false then
        (none, st, [REvent.isConnectedCall, REvent.logNotConnected])
      else
        match st.account with
        | none => (none, st, [REvent.isConnectedCall, REvent.logNoWallet])
        | some acct =>
          if pyFalsyStr st.registryAddress then
            (none, st, [REvent.isConnectedCall, REvent.logNoRegistry])
          else
            match registerTry c acct (st.registryAddress.getD "") agent_url with
            | Except.ok (res, evs) => (res, st, REvent.isConnectedCall :: evs)
            | Except.error (_, evs) => (none, st, REvent.isConnectedCall :: evs)

/-! ## Mock JSON-RPC endpoint: `mock_rpc.handle_rpc` -/

/-- JSON values as exchanged by the mock endpoint (Python `None` and the
JSON null are conflated, as `request.json()` does). -/
inductive Json where
  | null
  | bool (b : Bool)
  | num (n : Int)
  | str (s : String)
  | arr (xs : List Json)
  | obj (fields : List (String × Json))

/-- Python exception kinds the handler body can raise. -/
inductive PyErr where
  | attrError
  | typeError
  | indexError
deriving DecidableEq

/-- The response: a normal JSON-RPC success envelope carrying the id and
result, or the catch-all error envelope with its fixed code. -/
inductive RpcOut where
  | ok (reqId : Json) (result : Json)
  | err (code : Int)

/-- Dictionary lookup on a JSON object, first match. -/
def lookupField (fields : List (String × Json)) (k : String) : Option Json :=
  (fields.find? (fun p => p.1 == k)).map (fun p => p.2)

/-- Python `data.get(k)`: `none` for a missing key; raises
AttributeError when `data` is not a dictionary. -/
def jGetOpt (j : Json) (k : String) : Except PyErr (Option Json) :=
  match j with
  | Json.obj fields => Except.ok (lookupField fields k)
  | _ => Except.error PyErr.attrError

/-- Python `x == s` for a JSON value against a string literal. -/
def jsonEqStr : Json → String → Bool
  | Json.str s, t => s == t
  | _, _ => false

/-- Python `x == s` lifted to the possibly-missing method value
(`None == s` is false). -/
def optEqStr : Option Json → String → Bool
  | some j, t => jsonEqStr j t
  | none, _ => false

/-- Python truthiness of a JSON value. -/
def pyTruthy : Json → Bool
  | Json.null => false
  | Json.bool b => b
  | Json.num n => n != 0
  | Json.str s => s != ""
  | Json.arr [] => false
  | Json.arr (_ :: _) => true
  | Json.obj [] => false
  | Json.obj (_ :: _) => true

/-- Python `x[0]`: first element of a list, first character of a string;
raises on anything else (TypeError on numbers and booleans, and a lookup
failure on dictionaries without that key). -/
def pyIndex0 : Json → Except PyErr Json
  | Json.arr (x :: _) => Except.ok x
  | Json.arr [] => Except.error PyErr.indexError
  | Json.str s =>
    match s.data with
    | c :: _ => Except.ok (Json.str (String.mk [c]))
    | [] => Except.error PyErr.indexError
  | _ => Except.error PyErr.typeError

/-- The constant MOCK_TX_HASH, in the source the string 0x followed by 64 letters a. -/
def MOCK_TX_HASH : String := hexRun 'a' 64

/-- The constant MOCK_BLOCK_HASH, in the source the string 0x followed by 64 letters b. -/
def MOCK_BLOCK_HASH : String := hexRun 'b' 64

/-- The canned block returned for eth_getBlockByNumber. -/
def mockBlockFields : List (String × Json) :=
  [("number", Json.str "0x1"),
   ("hash", Json.str MOCK_BLOCK_HASH),
   ("parentHash", Json.str (hexRun '0' 64)),
   ("nonce", Json.str "0x0000000000000000"),
   ("sha3Uncles", Json.str (hexRun '0' 64)),
   ("logsBloom", Json.str (hexRun '0' 512)),
   ("transactionsRoot", Json.str (hexRun '0' 64)),
   ("stateRoot", Json.str (hexRun '0' 64)),
   ("receiptsRoot", Json.str (hexRun '0' 64)),
   ("miner", Json.str (hexRun '0' 40)),
   ("difficulty", Json.str "0x0"),
   ("totalDifficulty", Json.str "0x0"),
   ("extraData", Json.str "0x"),
   ("size", Json.str "0x3e8"),
   ("gasLimit", Json.str "0x1c9c380"),
   ("gasUsed", Json.str "0x0"),
   ("timestamp", Json.str "0x64fc9d77"),
   ("transactions", Json.arr []),
   ("uncles", Json.arr []),
   ("baseFeePerGas", Json.str "0x3b9aca00")]

/-- The canned success receipt returned for the mock transaction hash. -/
def mockReceiptFields : List (String × Json) :=
  [("transactionHash", Json.str MOCK_TX_HASH),
   ("transactionIndex", Json.str "0x1"),
   ("blockHash", Json.str MOCK_BLOCK_HASH),
   ("blockNumber", Json.str "0x1"),
   ("from", Json.str (hexRun '1' 40)),
   ("to", Json.str (hexRun '2' 40)),
   ("cumulativeGasUsed", Json.str "0x5208"),
   ("gasUsed", Json.str "0x5208"),
   ("contractAddress", Json.null),
   ("logs", Json.arr []),
   ("logsBloom", Json.str "0x0"),
   ("status", Json.str "0x1")]

/-- The method dispatch chain of `handle_rpc`, in source order; `hex(1337)`
is "0x539" and `str(1337)` is "1337". -/
def dispatch (method : Option Json) (params reqId : Json) :
    Except PyErr (Json × Json) :=
  if optEqStr method "eth_chainId" then Except.ok (reqId, Json.str "0x539")
  else if optEqStr method "net_version" then Except.ok (reqId, Json.str "1337")
  else if optEqStr method "eth_getTransactionCount" then Except.ok (reqId, Json.str "0x0")
  else if optEqStr method "eth_gasPrice" then Except.ok (reqId, Json.str "0x3b9aca00")
  else if optEqStr method "eth_estimateGas" then Except.ok (reqId, Json.str "0x5208")
  else if optEqStr method "eth_maxPriorityFeePerGas" then Except.ok (reqId, Json.str "0x3b9aca00")
  else if optEqStr method "eth_getBlockByNumber" then Except.ok (reqId, Json.obj mockBlockFields)
  else if optEqStr method "eth_sendRawTransaction" then Except.ok (reqId, Json.str MOCK_TX_HASH)
  else if optEqStr method "eth_getTransactionReceipt" then
    if pyTruthy params then
      match pyIndex0 params with
      | Except.error e => Except.error e
      | Except.ok p0 =>
        if jsonEqStr p0 MOCK_TX_HASH then Except.ok (reqId, Json.obj mockReceiptFields)
        else Except.ok (reqId, Json.null)
    else Except.ok (reqId, Json.null)
  else Except.ok (reqId, Json.str "0x0")

/-- The body of `handle_rpc` inside the try block: field extraction with
defaults, then the dispatch. -/
def handleBody (data : Json) : Except PyErr (Json × Json) :=
  match jGetOpt data "method" with
  | Except.error e => Except.error e
  | Except.ok method =>
    match jGetOpt data "params" with
    | Except.error e => Except.error e
    | Except.ok paramsOpt =>
      match jGetOpt data "id" with
      | Except.error e => Except.error e
      | Except.ok idOpt =>
        dispatch method (paramsOpt.getD (Json.arr [])) (idOpt.getD Json.null)

/-- The handler handle_rpc of mock_rpc on a parsed request body: any exception inside
the body is caught and converted to the fixed JSON-RPC error envelope. -/
def handle_rpc (data : Json) : RpcOut :=
  match handleBody data with
  | Except.ok (i, r) => RpcOut.ok i r
  | Except.error _ => RpcOut.err (-32000)

/-! ## Concrete instances used to witness the theorems -/

/-- A fully working chain world: connected, identity checksumming, nonce
zero, gas estimate 100, signing and submission succeed, receipt status 1. -/
def cwGood : ChainWorld where
  connected := true
  checksum := fun s => some s
  nonceOf := fun _ => some 0
  buildOk := true
  estimateGas := fun _ => some 100
  signOk := fun _ => true
  sendTx := fun _ => Except.ok [171]
  receiptOf := fun _ => some (Receipt.mk 1)

/-- The working chain world with a gas estimate of 2^53 + 1, where the
double rounding of `int(estimate * 1.2)` departs from exact arithmetic. -/
def cwBig : ChainWorld where
  connected := true
  checksum := fun s => some s
  nonceOf := fun _ => some 0
  buildOk := true
  estimateGas := fun _ => some 9007199254740993
  signOk := fun _ => true
  sendTx := fun _ => Except.ok [171]
  receiptOf := fun _ => some (Receipt.mk 1)

/-- Registrar state with the working chain world, a wallet and a registry. -/
def stGood : RegistrarState :=
  { w3 := some cwGood, account := some (Account.mk 1), registryAddress := some "0xreg" }

/-- Registrar state with the large-estimate chain world. -/
def stBig : RegistrarState :=
  { w3 := some cwBig, account := some (Account.mk 1), registryAddress := some "0xreg" }

/-- Registrar state with no chain client at all. -/
def stNoChain : RegistrarState :=
  { w3 := none, account := some (Account.mk 1), registryAddress := some "0xreg" }

/-- A wallet world whose key parser accepts three key strings and whose
file system is empty. -/
def wldPk : WalletWorld where
  parseKey := fun s =>
    if s = "k1" then some 1 else if s = "k2" then some 2 else
    if s = "k" then some 7 else none
  fs := fun _ => none
  freshKey := 3
  writeOk := true

/-- Configuration with a password and the raw private key "k". -/
def cfgPk : WalletConfig :=
  { password := some "pw", privateKey := some "k", keystorePath := none }

/-- Configuration with the raw private key "k1". -/
def cfgK1 : WalletConfig :=
  { password := some "pw", privateKey := some "k1", keystorePath := none }

/-- Configuration with the raw private key "k2". -/
def cfgK2 : WalletConfig :=
  { password := some "pw", privateKey := some "k2", keystorePath := none }

/-- Configuration with a raw private key but no password. -/
def cfgNoPw : WalletConfig :=
  { password := none, privateKey := some "k", keystorePath := none }

/-- A raw-transaction submission request body. -/
def fsSend : List (String × Json) :=
  [("method", Json.str "eth_sendRawTransaction"), ("id", Json.num 1)]

/-- A receipt query for the well-known mock transaction hash. -/
def fsRecHit : List (String × Json) :=
  [("method", Json.str "eth_getTransactionReceipt"),
   ("params", Json.arr [Json.str MOCK_TX_HASH]), ("id", Json.num 2)]

/-- A receipt query for a different transaction hash. -/
def fsRecMiss : List (String × Json) :=
  [("method", Json.str "eth_getTransactionReceipt"),
   ("params", Json.arr [Json.str "0xdead"]), ("id", Json.num 3)]

/-! ## Helper lemmas -/

/-- The method register never assigns any instance attribute: the state component
of the result is the input state, on every path. -/
theorem register_state_eq (url : String) (mock : Bool) (st : RegistrarState) :
    (register url mock st).2.1 = st := by
  unfold register
  split
  · rfl
  · split
    · rfl
    · split
      · rfl
      · split
        · rfl
        · split
          · rfl
          · split
            · rfl
            · rfl

/-- On a JSON object, the handler body is the dispatch applied to the
extracted fields with their Python defaults. -/
theorem handleBody_obj (fields : List (String × Json)) :
    handleBody (Json.obj fields) =
      dispatch (lookupField fields "method")
        ((lookupField fields "params").getD (Json.arr []))
        ((lookupField fields "id").getD Json.null) := rfl

/-- The dispatch on a raw-transaction submission ignores params and id
content and returns the fixed hash. -/
theorem dispatch_sendRaw (params reqId : Json) :
    dispatch (some (Json.str "eth_sendRawTransaction")) params reqId =
      Except.ok (reqId, Json.str MOCK_TX_HASH) := rfl

/-- The dispatch on a receipt query with a nonempty parameter list
reduces to the comparison of the first parameter with the fixed hash. -/
theorem dispatch_receipt_cons (p0 : Json) (rest : List Json) (reqId : Json) :
    dispatch (some (Json.str "eth_getTransactionReceipt")) (Json.arr (p0 :: rest)) reqId =
      (if jsonEqStr p0 MOCK_TX_HASH then Except.ok (reqId, Json.obj mockReceiptFields)
       else Except.ok (reqId, Json.null)) := rfl

/-! ## Claim theorems -/

/-- Claim C1: `register(agent_url, mock=False)` never lets an exception
propagate: its result type is a plain optional hash, every violated
precondition yields `none`, every exception raised inside the try block
(modelled by an erroneous `registerTry`) yields `none`, and a failed
receipt status yields `none`.  In particular, with no chain client the
result is `none`. -/
theorem register_failures_return_none (url : String) (st : RegistrarState) :
    (st.w3 = none → (register url false st).1 = none) ∧
    (∀ c, st.w3 = some c → c.connected = false → (register url false st).1 = none) ∧
    (st.account = none → (register url false st).1 = none) ∧
    (pyFalsyStr st.registryAddress = true → (register url false st).1 = none) ∧
    (∀ c acct e evs, st.w3 = some c → st.account = some acct →
      registerTry c acct (st.registryAddress.getD "") url = Except.error (e, evs) →
      (register url false st).1 = none) ∧
    (∀ c acct evs, st.w3 = some c → st.account = some acct →
      registerTry c acct (st.registryAddress.getD "") url = Except.ok (none, evs) →
      (register url false st).1 = none) := by
  obtain ⟨w3, account, reg⟩ := st
  refine ⟨?_, ?_, ?_, ?_, ?_, ?_⟩
  · intro h
    subst h
    rfl
  · intro c h hc
    subst h
    simp [register, hc]
  · intro h
    subst h
    cases w3 with
    | none => rfl
    | some c =>
      cases hc : c.connected
      · simp [register, hc]
      · simp [register, hc]
  · intro h
    cases w3 with
    | none => rfl
    | some c =>
      cases hc : c.connected
      · simp [register, hc]
      · cases account with
        | none => simp [register, hc]
        | some acct => simp [register, hc, h]
  · intro c acct e evs h ha htry
    subst h
    cases ha
    cases hc : c.connected
    · simp [register, hc]
    · cases hr : pyFalsyStr reg
      · simp [register, hc, hr, htry]
      · simp [register, hc, hr]
  · intro c acct evs h ha htry
    subst h
    cases ha
    cases hc : c.connected
    · simp [register, hc]
    · cases hr : pyFalsyStr reg
      · simp [register, hc, hr, htry]
      · simp [register, hc, hr]

/-- Witness for C1: with no connected chain client the call returns
`none`. -/
theorem register_failures_return_none_witness :
    (register "http://agent.example" false stNoChain).1 = none :=
  (register_failures_return_none "http://agent.example" stNoChain).1 rfl

/-- Claim C2: `register(agent_url, mock=True)` performs no network or
file effect whatsoever (empty event trace), leaves the state untouched,
and returns the placeholder hash 0x followed by sixty-four zero hex
characters, for every state and URL. -/
theorem register_mock_fixed_hash (url : String) (st : RegistrarState) :
    register url true st =
      (some ("0x" ++ String.mk (List.replicate 64 '0')), st, []) := rfl

/-- Claim C4: the three preconditions of the live path are checked in
source order — chain client connected, wallet loaded, registry address
configured — and the first failing one returns `none` with only its own
error log in the trace: no later check is observable and no transaction
build (no nonce fetch event) is attempted. -/
theorem register_precheck_order (url : String) (st : RegistrarState) :
    (st.w3 = none →
      register url false st = (none, st, [REvent.logNotConnected])) ∧
    (∀ c, st.w3 = some c → c.connected = false →
      register url false st = (none, st, [REvent.isConnectedCall, REvent.logNotConnected])) ∧
    (∀ c, st.w3 = some c → c.connected = true → st.account = none →
      register url false st = (none, st, [REvent.isConnectedCall, REvent.logNoWallet])) ∧
    (∀ c acct, st.w3 = some c → c.connected = true → st.account = some acct →
      pyFalsyStr st.registryAddress = true →
      register url false st = (none, st, [REvent.isConnectedCall, REvent.logNoRegistry])) := by
  refine ⟨?_, ?_, ?_, ?_⟩
  · intro h
    simp [register, h]
  · intro c h hc
    simp [register, h, hc]
  · intro c h hc ha
    simp [register, h, hc, ha]
  · intro c acct h hc ha hr
    simp [register, h, hc, ha, hr]

/-- Witness for C4: a connected client with no wallet loaded fails the
second check, logging only the wallet error. -/
theorem register_precheck_order_witness :
    register "http://agent.example" false
        { w3 := some cwGood, account := none, registryAddress := some "0xreg" } =
      (none, { w3 := some cwGood, account := none, registryAddress := some "0xreg" },
        [REvent.isConnectedCall, REvent.logNoWallet]) :=
  (register_precheck_order "http://agent.example"
    { w3 := some cwGood, account := none, registryAddress := some "0xreg" }).2.2.1
    cwGood rfl rfl rfl

/-- Claim C3: with the live path fully traversed up to an observed
receipt, a receipt status of 1 makes `register` return the transaction
hash in canonical 0x-prefixed hex form, and any other status value makes
it return `none`. -/
theorem register_receipt_status (url : String) (st : RegistrarState) (c : ChainWorld)
    (acct : Account) (a2 : String) (nn : Nat) (hsh : List Nat) (r : Receipt)
    (hw : st.w3 = some c) (hc : c.connected = true) (ha : st.account = some acct)
    (hreg : pyFalsyStr st.registryAddress = false)
    (hck : c.checksum (st.registryAddress.getD "") = some a2)
    (hn : c.nonceOf acct.address = some nn)
    (hb : c.buildOk = true)
    (hs : c.signOk (applyGas c (buildTx acct a2 url nn)) = true)
    (hsend : c.sendTx (applyGas c (buildTx acct a2 url nn)) = Except.ok hsh)
    (hrec : c.receiptOf hsh = some r) :
    (r.status = 1 →
      (register url false st).1 = some (toHex hsh) ∧
      ∃ t, toHex hsh = "0x" ++ t) ∧
    (r.status ≠ 1 → (register url false st).1 = none) := by
  constructor
  · intro h1
    refine ⟨?_, String.mk (hsh.flatMap byteToHex), rfl⟩
    simp [register, registerTry, hw, hc, ha, hreg, hck, hn, hb, hs, hsend, hrec, h1]
  · intro h1
    simp [register, registerTry, hw, hc, ha, hreg, hck, hn, hb, hs, hsend, hrec, h1]

/-- Witness for C3: in the working world the submitted transaction is
reported back as its hex hash. -/
theorem register_receipt_status_witness :
    (register "http://agent.example" false stGood).1 = some "0xab" :=
  ((register_receipt_status "http://agent.example" stGood cwGood (Account.mk 1)
    "0xreg" 0 [171] (Receipt.mk 1) rfl rfl rfl rfl rfl rfl rfl rfl rfl rfl).1 rfl).1

/-- Claim C7 (amended): when gas estimation succeeds with estimate `g`,
the submitted transaction carries the gas limit `int(g * 1.2)` computed
in IEEE-754 double-precision arithmetic; when estimation fails, the
transaction is still signed and submitted, with no gas value set. -/
theorem register_gas_margin (url : String) (st : RegistrarState) (c : ChainWorld)
    (acct : Account) (a2 : String) (nn : Nat) (hsh : List Nat) (r : Receipt)
    (hw : st.w3 = some c) (hc : c.connected = true) (ha : st.account = some acct)
    (hreg : pyFalsyStr st.registryAddress = false)
    (hck : c.checksum (st.registryAddress.getD "") = some a2)
    (hn : c.nonceOf acct.address = some nn)
    (hb : c.buildOk = true)
    (hs : c.signOk (applyGas c (buildTx acct a2 url nn)) = true)
    (hsend : c.sendTx (applyGas c (buildTx acct a2 url nn)) = Except.ok hsh)
    (hrec : c.receiptOf hsh = some r) :
    (∀ g, c.estimateGas (buildTx acct a2 url nn) = some g →
      (register url false st).2.2 =
        [REvent.isConnectedCall, REvent.nonceFetch, REvent.gasEstimate (some g),
         REvent.signCall,
         REvent.sendRaw { buildTx acct a2 url nn with gas := some (pyIntMul12 g) },
         REvent.receiptWait hsh]) ∧
    (c.estimateGas (buildTx acct a2 url nn) = none →
      (register url false st).2.2 =
        [REvent.isConnectedCall, REvent.nonceFetch, REvent.gasEstimate none,
         REvent.signCall, REvent.sendRaw (buildTx acct a2 url nn),
         REvent.receiptWait hsh]) := by
  constructor
  · intro g hg
    simp [applyGas, hg] at hs hsend
    by_cases h1 : r.status = 1 <;>
      simp [register, registerTry, applyGas, hw, hc, ha, hreg, hck, hn, hb,
        hs, hsend, hrec, hg, h1]
  · intro hg
    simp [applyGas, hg] at hs hsend
    by_cases h1 : r.status = 1 <;>
      simp [register, registerTry, applyGas, hw, hc, ha, hreg, hck, hn, hb,
        hs, hsend, hrec, hg, h1]

set_option maxRecDepth 8000

/-- Witness for C7: a successful estimate of 100 puts gas 120 — the 20%
margin — on the submitted transaction. -/
theorem register_gas_margin_witness :
    (register "u" false stGood).2.2 =
      [REvent.isConnectedCall, REvent.nonceFetch, REvent.gasEstimate (some 100),
       REvent.signCall, REvent.sendRaw (Tx.mk 1 0 (some 120) "u" "0xreg"),
       REvent.receiptWait [171]] :=
  (register_gas_margin "u" stGood cwGood (Account.mk 1) "0xreg" 0 [171]
    (Receipt.mk 1) rfl rfl rfl rfl rfl rfl rfl rfl rfl rfl).1 100 rfl

/-- Counterexample for C7 as stated: with a successful gas estimate of
2^53 + 1 = 9007199254740993, the code submits gas 10808639105689190,
but the integer part of the estimate times 1.2 is 10808639105689191;
Python float arithmetic loses the final unit. -/
theorem register_gas_margin_counterexample :
    (register "u" false stBig).2.2 =
      [REvent.isConnectedCall, REvent.nonceFetch,
       REvent.gasEstimate (some 9007199254740993), REvent.signCall,
       REvent.sendRaw (Tx.mk 1 0 (some 10808639105689190) "u" "0xreg"),
       REvent.receiptWait [171]] ∧
    pyIntMul12 9007199254740993 = 10808639105689190 ∧
    6 * 9007199254740993 / 5 = 10808639105689191 ∧
    (10808639105689190 : Nat) ≠ 10808639105689191 := by
  refine ⟨?_, ?_, ?_, ?_⟩
  · rfl
  · rfl
  · rfl
  · decide

/-- Claim C5: wallet resolution is first-match-wins.  With a nonempty
raw private key configured, a successful parse loads that identity and a
failed parse returns `none`, in both cases with no file-system effect at
all (the keystore is never read).  With no raw key and an existing
keystore file, a matching password loads the stored identity and a
mismatch returns `none` without creating a wallet.  With neither, a
fresh account is created, written encrypted to the configured path, and
its address returned. -/
theorem wallet_resolution_order (cfg : WalletConfig) (w : WalletWorld)
    (acct : Option Account) (p : String)
    (hp : cfg.password = some p) (hp2 : p ≠ "") :
    (∀ k, cfg.privateKey = some k → k ≠ "" →
      (∀ key, w.parseKey k = some key →
        loadOrCreateWallet cfg w acct =
          (some (Account.mk key).address, some (Account.mk key), w, [])) ∧
      (w.parseKey k = none →
        loadOrCreateWallet cfg w acct = (none, acct, w, []))) ∧
    (pyFalsyStr cfg.privateKey = true →
      (∀ ek, w.fs (cfg.keystorePath.getD DEFAULT_KEYSTORE_PATH) = some ek →
        (ek.pwTag = p →
          loadOrCreateWallet cfg w acct =
            (some (Account.mk ek.keyCipher).address, some (Account.mk ek.keyCipher), w,
             [WEvent.readKeystore (cfg.keystorePath.getD DEFAULT_KEYSTORE_PATH)])) ∧
        (ek.pwTag ≠ p →
          loadOrCreateWallet cfg w acct =
            (none, acct, w,
             [WEvent.readKeystore (cfg.keystorePath.getD DEFAULT_KEYSTORE_PATH)]))) ∧
      (w.fs (cfg.keystorePath.getD DEFAULT_KEYSTORE_PATH) = none → w.writeOk = true →
        loadOrCreateWallet cfg w acct =
          (some (Account.mk w.freshKey).address, some (Account.mk w.freshKey),
           { w with fs := fun q =>
               if q = cfg.keystorePath.getD DEFAULT_KEYSTORE_PATH
               then some (EncryptedKeystore.mk w.freshKey p) else w.fs q },
           [WEvent.createAccount,
            WEvent.writeKeystore (cfg.keystorePath.getD DEFAULT_KEYSTORE_PATH)]))) := by
  refine ⟨?_, ?_⟩
  · intro k hk hk2
    constructor
    · intro key hkey
      simp [loadOrCreateWallet, pyFalsyStr, hp, hp2, hk, hk2, hkey]
    · intro hkey
      simp [loadOrCreateWallet, pyFalsyStr, hp, hp2, hk, hk2, hkey]
  · intro hpk
    have hpw : pyFalsyStr (some p) = false := by
      simp [pyFalsyStr, hp2]
    refine ⟨?_, ?_⟩
    · intro ek hek
      constructor
      · intro hekp
        simp [loadOrCreateWallet, keystoreFlow, hpw, hp, hpk, hek, hekp]
      · intro hekp
        simp [loadOrCreateWallet, keystoreFlow, hpw, hp, hpk, hek, hekp]
    · intro hfs hwr
      simp [loadOrCreateWallet, keystoreFlow, hpw, hp, hpk, hfs, hwr]

/-- Witness for C5: with a raw private key that parses to key 7, the
wallet is loaded from it with no file-system event. -/
theorem wallet_resolution_order_witness :
    loadOrCreateWallet cfgPk wldPk none = (some 7, some (Account.mk 7), wldPk, []) :=
  ((wallet_resolution_order cfgPk wldPk none "pw" rfl (by decide)).1
    "k" rfl (by decide)).1 7 rfl

/-- Claim C6: with no wallet password configured,
`load_or_create_wallet` returns `none` before any resolution step: the
account slot, the world and the event trace are untouched, whatever the
rest of the configuration (including a supplied raw private key). -/
theorem wallet_password_required (cfg : WalletConfig) (w : WalletWorld)
    (acct : Option Account) (h : cfg.password = none) :
    loadOrCreateWallet cfg w acct = (none, acct, w, []) := by
  simp [loadOrCreateWallet, pyFalsyStr, h]

/-- Witness for C6: a configuration carrying a raw private key but no
password still yields `none` with no effect. -/
theorem wallet_password_required_witness :
    loadOrCreateWallet cfgNoPw wldPk none = (none, none, wldPk, []) :=
  wallet_password_required cfgNoPw wldPk none rfl

/-- Counterexample for C9 as stated: an instance that has loaded the
identity with key 1 from configured private key "k1" loads a different
identity, key 2, when `load_or_create_wallet` runs again under a
configuration carrying private key "k2" — the loaded identity is not
immutable across repeated calls. -/
theorem wallet_identity_replaced_counterexample :
    (loadOrCreateWallet cfgK1 wldPk none).2.1 = some (Account.mk 1) ∧
    (loadOrCreateWallet cfgK2 wldPk (some (Account.mk 1))).2.1 = some (Account.mk 2) ∧
    Account.mk 1 ≠ Account.mk 2 := by
  refine ⟨rfl, rfl, by decide⟩

/-- Claim C9 (amended): the instance holds at most one identity (a
single account slot); `register` never modifies it on any path, and a
repeated `load_or_create_wallet` under the same configuration and the
world left by a successful call reproduces the same address and the same
identity — but a changed configuration can replace the identity, as the
counterexample shows. -/
theorem wallet_identity_amended (cfg : WalletConfig) (w : WalletWorld)
    (acct : Option Account) (addr : Nat) (acct2 : Option Account)
    (w2 : WalletWorld) (evs : List WEvent) :
    (∀ url mock st, (register url mock st).2.1 = st) ∧
    (loadOrCreateWallet cfg w acct = (some addr, acct2, w2, evs) →
      ∃ evs2, loadOrCreateWallet cfg w2 acct2 = (some addr, acct2, w2, evs2)) := by
  refine ⟨register_state_eq, ?_⟩
  intro h
  by_cases hpw : pyFalsyStr cfg.password = true
  · simp [loadOrCreateWallet, hpw] at h
  · rw [Bool.not_eq_true] at hpw
    by_cases hpk : pyFalsyStr cfg.privateKey = true
    · cases hfs : w.fs (cfg.keystorePath.getD DEFAULT_KEYSTORE_PATH) with
      | some ek =>
        by_cases hekp : ek.pwTag = cfg.password.getD ""
        · simp [loadOrCreateWallet, keystoreFlow, hpw, hpk, hfs, hekp,
            Account.address] at h
          obtain ⟨h1, h2, h3, h4⟩ := h
          subst h1
          subst h2
          subst h3
          exact ⟨[WEvent.readKeystore (cfg.keystorePath.getD DEFAULT_KEYSTORE_PATH)],
            by simp [loadOrCreateWallet, keystoreFlow, hpw, hpk, hfs, hekp, Account.address]⟩
        · simp [loadOrCreateWallet, keystoreFlow, hpw, hpk, hfs, hekp] at h
      | none =>
        by_cases hwr : w.writeOk = true
        · simp [loadOrCreateWallet, keystoreFlow, hpw, hpk, hfs, hwr,
            Account.address] at h
          obtain ⟨h1, h2, h3, h4⟩ := h
          subst h1
          subst h2
          subst h3
          refine ⟨[WEvent.readKeystore (cfg.keystorePath.getD DEFAULT_KEYSTORE_PATH)], ?_⟩
          simp [loadOrCreateWallet, keystoreFlow, hpw, hpk, Account.address]
        · rw [Bool.not_eq_true] at hwr
          simp [loadOrCreateWallet, keystoreFlow, hpw, hpk, hfs, hwr] at h
    · rw [Bool.not_eq_true] at hpk
      cases hkey : w.parseKey (cfg.privateKey.getD "") with
      | some key =>
        simp [loadOrCreateWallet, hpw, hpk, hkey, Account.address] at h
        obtain ⟨h1, h2, h3, h4⟩ := h
        subst h1
        subst h2
        subst h3
        exact ⟨[], by simp [loadOrCreateWallet, hpw, hpk, hkey, Account.address]⟩
      | none =>
        simp [loadOrCreateWallet, hpw, hpk, hkey] at h

/-- Witness for C9 (amended): reloading under the unchanged private-key
configuration reproduces identity 1. -/
theorem wallet_identity_amended_witness :
    ∃ evs2, loadOrCreateWallet cfgK1 wldPk (some (Account.mk 1)) =
      (some 1, some (Account.mk 1), wldPk, evs2) :=
  (wallet_identity_amended cfgK1 wldPk none 1 (some (Account.mk 1)) wldPk []).2 rfl

/-- Claim C8: the mock handler answers every eth_sendRawTransaction
request with the fixed hash 0x followed by sixty-four letters a,
whatever the payload; a receipt query whose first parameter equals that
hash gets the canned receipt, whose status field is the success value
"0x1"; a receipt query for any other first parameter gets a null
result. -/
theorem mock_send_and_receipt (fields : List (String × Json)) :
    (lookupField fields "method" = some (Json.str "eth_sendRawTransaction") →
      handle_rpc (Json.obj fields) =
        RpcOut.ok ((lookupField fields "id").getD Json.null) (Json.str MOCK_TX_HASH)) ∧
    (lookupField fields "method" = some (Json.str "eth_getTransactionReceipt") →
      (∀ rest, lookupField fields "params" = some (Json.arr (Json.str MOCK_TX_HASH :: rest)) →
        handle_rpc (Json.obj fields) =
          RpcOut.ok ((lookupField fields "id").getD Json.null) (Json.obj mockReceiptFields) ∧
        lookupField mockReceiptFields "status" = some (Json.str "0x1")) ∧
      (∀ p0 rest, lookupField fields "params" = some (Json.arr (p0 :: rest)) →
        jsonEqStr p0 MOCK_TX_HASH = false →
        handle_rpc (Json.obj fields) =
          RpcOut.ok ((lookupField fields "id").getD Json.null) Json.null)) := by
  refine ⟨?_, ?_⟩
  · intro hm
    unfold handle_rpc
    rw [handleBody_obj, hm, dispatch_sendRaw]
  · intro hm
    refine ⟨?_, ?_⟩
    · intro rest hp
      refine ⟨?_, rfl⟩
      unfold handle_rpc
      rw [handleBody_obj, hm, hp]
      rfl
    · intro p0 rest hp hne
      unfold handle_rpc
      rw [handleBody_obj, hm, hp]
      show (match
        dispatch (some (Json.str "eth_getTransactionReceipt"))
          ((some (Json.arr (p0 :: rest))).getD (Json.arr []))
          ((lookupField fields "id").getD Json.null) with
        | Except.ok (i, r) => RpcOut.ok i r
        | Except.error _ => RpcOut.err (-32000)) = _
      rw [show ((some (Json.arr (p0 :: rest))).getD (Json.arr [])) = Json.arr (p0 :: rest) from rfl,
        dispatch_receipt_cons, if_neg (by simp [hne])]

/-- Witness for C8: a concrete submission request gets the fixed hash. -/
theorem mock_send_and_receipt_witness :
    handle_rpc (Json.obj fsSend) = RpcOut.ok (Json.num 1) (Json.str MOCK_TX_HASH) :=
  (mock_send_and_receipt fsSend).1 rfl

/-- Claim C10: for a receipt query whose params field is absent, is an
empty list, or has a first element different from the fixed hash, the
handler returns a normal success envelope with a null result — the
guarded access to the first parameter neither raises nor produces an
error envelope. -/
theorem mock_receipt_guard_null (fields : List (String × Json))
    (hm : lookupField fields "method" = some (Json.str "eth_getTransactionReceipt")) :
    (lookupField fields "params" = none →
      handle_rpc (Json.obj fields) =
        RpcOut.ok ((lookupField fields "id").getD Json.null) Json.null) ∧
    (lookupField fields "params" = some (Json.arr []) →
      handle_rpc (Json.obj fields) =
        RpcOut.ok ((lookupField fields "id").getD Json.null) Json.null) ∧
    (∀ p0 rest, lookupField fields "params" = some (Json.arr (p0 :: rest)) →
      jsonEqStr p0 MOCK_TX_HASH = false →
      handle_rpc (Json.obj fields) =
        RpcOut.ok ((lookupField fields "id").getD Json.null) Json.null) := by
  refine ⟨?_, ?_, ?_⟩
  · intro hp
    unfold handle_rpc
    rw [handleBody_obj, hm, hp]
    rfl
  · intro hp
    unfold handle_rpc
    rw [handleBody_obj, hm, hp]
    rfl
  · intro p0 rest hp hne
    unfold handle_rpc
    rw [handleBody_obj, hm, hp]
    show (match
      dispatch (some (Json.str "eth_getTransactionReceipt"))
        ((some (Json.arr (p0 :: rest))).getD (Json.arr []))
        ((lookupField fields "id").getD Json.null) with
      | Except.ok (i, r) => RpcOut.ok i r
      | Except.error _ => RpcOut.err (-32000)) = _
    rw [show ((some (Json.arr (p0 :: rest))).getD (Json.arr [])) = Json.arr (p0 :: rest) from rfl,
      dispatch_receipt_cons, if_neg (by simp [hne])]

/-- Witness for C10: a concrete receipt query for a different hash gets
a success envelope with a null result. -/
theorem mock_receipt_guard_null_witness :
    handle_rpc (Json.obj fsRecMiss) = RpcOut.ok (Json.num 3) Json.null :=
  (mock_receipt_guard_null fsRecMiss rfl).2.2 (Json.str "0xdead") [] rfl rfl

end OnchainRegistry
